import Mathlib

/-!
Verification development for the QC module of multipatch_analysis
(multipatch_analysis/qc.py).

The module consists of two pure predicate functions over patch-clamp
recordings:

* recording_qc_pass: recording-level quality control.
* pulse_response_qc_pass: pulse-response-level quality control, which
  delegates to recording_qc_pass and then inspects a window of the
  recorded signal.

Floating point samples and thresholds are embedded as rationals; numpy
array operations (slicing, median, standard deviation, max, counting
exact zeros) are embedded as executable list functions below.  The
standard deviation carries a square root, which is irrational in
general; every comparison the code makes is of the form std(xs) > t
with t > 0, which is equivalent to var(xs) > t^2, so the embedding
compares the (rational) population variance against the squared
threshold.
-/

/-- A patch-clamp recording, as consumed by qc.py.  The clamp mode is
the mode string of the recording (the code compares it against the
strings "ic" and "vc"); the baseline scalars are in SI units (amperes
and volts); primary and command are the sampled data channels. -/
structure PatchClampRecording where
  clamp_mode : String
  baseline_current : ℚ
  baseline_potential : ℚ
  baseline_rms_noise : ℚ
  primary : List ℚ
  command : List ℚ
deriving Repr, DecidableEq

/-- The error raised by pulse_response_qc_pass on an unrecognized
clamp mode (in the source a TypeError whose message embeds the mode
string); it carries the offending mode value. -/
structure UnsupportedClampMode where
  mode : String
deriving Repr, DecidableEq

/-- Python slice xs[a:b] for non-negative bounds a, b. -/
def pySlice (xs : List ℚ) (a b : Nat) : List ℚ :=
  (xs.drop a).take (b - a)

/-- Number of exact-zero samples in an array: (data == 0).sum(). -/
def zeroCount (xs : List ℚ) : Nat :=
  xs.countP (fun x => decide (x = 0))

/-- Median of an array, as computed by numpy: sort, then take the
middle element (odd length) or the mean of the two middle elements
(even length).  Returns 0 on the empty array, which numpy leaves
undefined (nan). -/
def npMedian (xs : List ℚ) : ℚ :=
  let s := xs.insertionSort (fun a b => a ≤ b)
  let n := xs.length
  if n % 2 = 1 then s.getD (n / 2) 0
  else (s.getD (n / 2 - 1) 0 + s.getD (n / 2) 0) / 2

/-- Arithmetic mean of an array (0 on the empty array). -/
def npMean (xs : List ℚ) : ℚ :=
  xs.sum / (xs.length : ℚ)

/-- Population variance, the square of numpy std (ddof = 0). -/
def npVar (xs : List ℚ) : ℚ :=
  ((xs.map (fun x => (x - npMean xs) ^ 2)).sum) / (xs.length : ℚ)

/-- The comparison xs.std() > t of the source for a threshold t > 0,
stated without square roots: std(xs) > t holds exactly when
var(xs) > t^2. -/
def stdGt (xs : List ℚ) (t : ℚ) : Bool :=
  decide (npVar xs > t ^ 2)

/-- Maximum of an array: data.max() (0 on the empty array, which numpy
rejects; all uses are on nonempty windows). -/
def npMax (xs : List ℚ) : ℚ :=
  match xs with
  | [] => 0
  | x :: rest => rest.foldl max x

/-- recording_qc_pass from qc.py.  Applies the minimal recording-level
QC criteria: baseline current strictly within the 800 pA limits, for
current clamp a baseline potential strictly between -85 mV and -45 mV
and RMS noise at most 5 mV, for voltage clamp RMS noise at most
200 pA, and no more than one tenth (floor division) of the primary
samples exactly zero.  Unrecognized clamp modes skip the mode-specific
checks. -/
def recording_qc_pass (rec : PatchClampRecording) : Bool :=
  if rec.baseline_current < -800e-12 ∨ rec.baseline_current > 800e-12 then false
  else
    let mode_fail : Bool :=
      if rec.clamp_mode = "ic" then
        decide (rec.baseline_potential < -85e-3 ∨ rec.baseline_potential > -45e-3) ||
        decide (rec.baseline_rms_noise > 5e-3)
      else if rec.clamp_mode = "vc" then
        decide (rec.baseline_rms_noise > 200e-12)
      else false
    if mode_fail then false
    else if zeroCount rec.primary > rec.primary.length / 10 then false
    else true

/-- The qc_pass tuple built in the last lines of pulse_response_qc_pass:
for each polarity limit pair (the excitatory limits -85 mV to -45 mV and
the inhibitory limits -60 mV to -45 mV), both the window median base and
the recording baseline potential base2 must lie strictly inside. -/
def holding_limits_pass (base base2 : ℚ) : Bool × Bool :=
  (decide (-85e-3 < base ∧ base < -45e-3) && decide (-85e-3 < base2 ∧ base2 < -45e-3),
   decide (-60e-3 < base ∧ base < -45e-3) && decide (-60e-3 < base2 ∧ base2 < -45e-3))

/-- The adjacent-pulse test of pulse_response_qc_pass: true when some
adjacent pulse time is within 8 ms of the pulse of interest. -/
def check_adjacent (adjacent_pulses : List ℚ) : Bool :=
  adjacent_pulses.any (fun t => decide (|t| < 8e-3))

/-- The tail of pulse_response_qc_pass, evaluated once the window
statistics have been computed without failure: reject both polarities
if any adjacent pulse falls within 8 ms, otherwise evaluate the
holding-potential limits on the window median and the recording
baseline potential. -/
def pulse_response_tail_stage (post_rec : PatchClampRecording) (base : ℚ)
    (adjacent_pulses : List ℚ) : Except UnsupportedClampMode (Bool × Bool) :=
  if check_adjacent adjacent_pulses then .ok (false, false)
  else .ok (holding_limits_pass base post_rec.baseline_potential)

/-- The window-statistics step of pulse_response_qc_pass and everything
after it.  For current clamp the base is the median of the primary
window, which must have standard deviation at most 1.5 mV and maximum
at most -40 mV; for voltage clamp the base is the median of the command
window and the primary window must have standard deviation at most
15 pA; any other clamp mode raises UnsupportedClampMode. -/
def pulse_response_window_stage (post_rec : PatchClampRecording)
    (window : Nat × Nat) (adjacent_pulses : List ℚ) :
    Except UnsupportedClampMode (Bool × Bool) :=
  if post_rec.clamp_mode = "ic" then
    let data := pySlice post_rec.primary window.1 window.2
    let base := npMedian data
    if stdGt data 1.5e-3 then .ok (false, false)
    else if npMax data > -40e-3 then .ok (false, false)
    else pulse_response_tail_stage post_rec base adjacent_pulses
  else if post_rec.clamp_mode = "vc" then
    let data := pySlice post_rec.primary window.1 window.2
    let base := npMedian (pySlice post_rec.command window.1 window.2)
    if stdGt data 15e-12 then .ok (false, false)
    else pulse_response_tail_stage post_rec base adjacent_pulses
  else .error ⟨post_rec.clamp_mode⟩

/-- pulse_response_qc_pass from qc.py.  The postsynaptic recording must
pass recording_qc_pass; a present spike count of exactly zero fails
(None skips the check); then the window statistics, adjacent-pulse and
holding-potential steps run in order.  The result is the pair
(excitatory pass, inhibitory pass), or an UnsupportedClampMode error. -/
def pulse_response_qc_pass (post_rec : PatchClampRecording) (window : Nat × Nat)
    (n_spikes : Option ℤ) (adjacent_pulses : List ℚ) :
    Except UnsupportedClampMode (Bool × Bool) :=
  if recording_qc_pass post_rec = false then .ok (false, false)
  else if n_spikes = some 0 then .ok (false, false)
  else pulse_response_window_stage post_rec window adjacent_pulses

/-- A current-clamp recording that passes every recording-level check,
with a constant in-range primary trace; used as the base point for
concrete evaluations. -/
def recOkIC : PatchClampRecording :=
  { clamp_mode := "ic"
    baseline_current := 0
    baseline_potential := -50e-3
    baseline_rms_noise := 0
    primary := [-50e-3, -50e-3, -50e-3, -50e-3]
    command := [0, 0, 0, 0] }

/-- An otherwise-valid recording with an unrecognized clamp mode and a
nowhere-zero primary trace. -/
def recModeXX : PatchClampRecording :=
  { clamp_mode := "xx"
    baseline_current := 0
    baseline_potential := 0
    baseline_rms_noise := 0
    primary := [1, 1]
    command := [1, 1] }

/-- An out-of-range recording: baseline current 900 pA, strictly above
the 800 pA limit, so recording_qc_pass fails; the clamp mode is also
unrecognized. -/
def recBadCurrentXX : PatchClampRecording :=
  { recOkIC with baseline_current := 900e-12, clamp_mode := "xx" }

/-- C1, counterexample.  The claim says a recording whose baseline
current is exactly -800e-12 A is rejected; on the code the rejection
comparison is strict, so this otherwise-valid recording passes. -/
theorem C1_boundary_counterexample :
    ({ recOkIC with baseline_current := -800e-12 } : PatchClampRecording).baseline_current
      = -800e-12 ∧
    recording_qc_pass { recOkIC with baseline_current := -800e-12 } = true :=
  ⟨rfl, by with_unfolding_all decide⟩

/-- C1, amended.  The rejection comparisons are strict, so the exact
boundary values are accepted, not rejected: a recording with baseline
current exactly plus or minus 800e-12 A behaves exactly as one with
baseline current 0, a current-clamp recording with baseline potential
exactly -85e-3 V (or -84.999e-3 V) behaves exactly as one with baseline
potential -50e-3 V, and the otherwise-valid recording with baseline
potential -84.999e-3 V passes. -/
theorem C1_boundary_amended :
    (∀ rec : PatchClampRecording,
        rec.baseline_current = -800e-12 ∨ rec.baseline_current = 800e-12 →
        recording_qc_pass rec = recording_qc_pass { rec with baseline_current := 0 })
  ∧ (∀ rec : PatchClampRecording, rec.clamp_mode = "ic" →
        rec.baseline_potential = -85e-3 ∨ rec.baseline_potential = -84.999e-3 →
        recording_qc_pass rec = recording_qc_pass { rec with baseline_potential := -50e-3 })
  ∧ recording_qc_pass { recOkIC with baseline_potential := -84.999e-3 } = true := by
  refine ⟨?_, ?_, by with_unfolding_all decide⟩
  · intro rec h
    rcases h with h | h <;> simp only [recording_qc_pass, h] <;> norm_num
  · intro rec hm h
    rcases h with h | h <;> simp only [recording_qc_pass, hm, h] <;> norm_num

/-- C1, witness for the amended theorem at the upper current boundary. -/
theorem C1_boundary_amended_witness :
    recording_qc_pass { recOkIC with baseline_current := 800e-12 } =
      recording_qc_pass { { recOkIC with baseline_current := 800e-12 } with
        baseline_current := 0 } ∧
    recording_qc_pass { recOkIC with baseline_potential := -85e-3 } =
      recording_qc_pass { { recOkIC with baseline_potential := -85e-3 } with
        baseline_potential := -50e-3 } :=
  ⟨C1_boundary_amended.1 _ (Or.inr rfl),
   C1_boundary_amended.2.1 _ rfl (Or.inl rfl)⟩

/-- C2.  Whenever the postsynaptic recording fails recording_qc_pass,
pulse_response_qc_pass returns the ordinary pair (false, false) for
every window, spike count and adjacent-pulse list, never an error. -/
theorem C2_recording_fail_short_circuit (rec : PatchClampRecording) (w : Nat × Nat)
    (n : Option ℤ) (adj : List ℚ) (h : recording_qc_pass rec = false) :
    pulse_response_qc_pass rec w n adj = .ok (false, false) := by
  simp [pulse_response_qc_pass, h]

/-- C2, witness: a failing recording with an unrecognized clamp mode
and an adjacent pulse within 8 ms still yields (false, false). -/
theorem C2_recording_fail_short_circuit_witness :
    recording_qc_pass recBadCurrentXX = false ∧
    pulse_response_qc_pass recBadCurrentXX (0, 2) (some 5) [1e-3] = .ok (false, false) :=
  ⟨by with_unfolding_all decide,
   C2_recording_fail_short_circuit recBadCurrentXX (0, 2) (some 5) [1e-3]
     (by with_unfolding_all decide)⟩

/-- C3.  pulse_response_qc_pass produces an UnsupportedClampMode error
exactly when the recording-level check and the spike check both pass
and the clamp mode is neither ic nor vc, and the error carries the
offending mode; recording_qc_pass itself never errors on such a mode,
reducing to just the baseline-current and zero-fraction checks. -/
theorem C3_unsupported_clamp_mode :
    (∀ (rec : PatchClampRecording) (w : Nat × Nat) (n : Option ℤ) (adj : List ℚ)
        (e : UnsupportedClampMode),
      pulse_response_qc_pass rec w n adj = .error e ↔
        (recording_qc_pass rec = true ∧ n ≠ some 0 ∧
         rec.clamp_mode ≠ "ic" ∧ rec.clamp_mode ≠ "vc" ∧ e = ⟨rec.clamp_mode⟩))
  ∧ (∀ rec : PatchClampRecording, rec.clamp_mode ≠ "ic" → rec.clamp_mode ≠ "vc" →
      recording_qc_pass rec =
        (!(decide (rec.baseline_current < -800e-12 ∨ rec.baseline_current > 800e-12)) &&
         !(decide (zeroCount rec.primary > rec.primary.length / 10)))) := by
  constructor
  · intro rec w n adj e
    constructor
    · intro h
      unfold pulse_response_qc_pass pulse_response_window_stage
        pulse_response_tail_stage at h
      repeat' split at h
      all_goals try simp_all
      all_goals repeat' split at h
      all_goals simp_all
    · rintro ⟨h1, h2, h3, h4, h5⟩
      unfold pulse_response_qc_pass pulse_response_window_stage
      simp [h1, h2, h3, h4, h5]
  · intro rec h1 h2
    unfold recording_qc_pass
    by_cases hbc : rec.baseline_current < -800e-12 ∨ rec.baseline_current > 800e-12 <;>
      by_cases hz : zeroCount rec.primary > rec.primary.length / 10 <;>
      simp [h1, h2, hbc, hz]

/-- C3, witness: on a passing recording with clamp mode "xx" the pulse
response check errors with that mode, and the recording-level check on
the same recording reduces to the two mode-independent checks. -/
theorem C3_unsupported_clamp_mode_witness :
    (pulse_response_qc_pass recModeXX (0, 2) none [] = .error ⟨"xx"⟩ ↔
      (recording_qc_pass recModeXX = true ∧ (none : Option ℤ) ≠ some 0 ∧
       recModeXX.clamp_mode ≠ "ic" ∧ recModeXX.clamp_mode ≠ "vc" ∧
       (⟨"xx"⟩ : UnsupportedClampMode) = ⟨recModeXX.clamp_mode⟩)) ∧
    recording_qc_pass recModeXX =
      (!(decide (recModeXX.baseline_current < -800e-12 ∨
                 recModeXX.baseline_current > 800e-12)) &&
       !(decide (zeroCount recModeXX.primary > recModeXX.primary.length / 10))) :=
  ⟨C3_unsupported_clamp_mode.1 recModeXX (0, 2) none [] ⟨"xx"⟩,
   C3_unsupported_clamp_mode.2 recModeXX (by decide) (by decide)⟩

/-- A voltage-clamp recording that passes every recording-level check.
Its primary and command channels have different constant values, so
their window medians differ; the command median (-50 mV) lies inside
both polarity ranges while the primary median (-30 mV) lies in
neither. -/
def recVC : PatchClampRecording :=
  { clamp_mode := "vc"
    baseline_current := 0
    baseline_potential := -50e-3
    baseline_rms_noise := 0
    primary := [-30e-3, -30e-3, -30e-3, -30e-3]
    command := [-50e-3, -50e-3, -50e-3, -50e-3] }

/-- C4.  On the voltage-clamp path the whole computation after the
spike check is the standard-deviation check on the primary window
against 15 pA, then the adjacent-pulse check, then the holding limits
evaluated at the median of the command window (not the primary
window); and on a concrete recording whose primary and command medians
differ, the verdict tracks the command median. -/
theorem C4_vc_base_from_command :
    (∀ (rec : PatchClampRecording) (a b : Nat) (n : Option ℤ) (adj : List ℚ),
      recording_qc_pass rec = true → n ≠ some 0 → rec.clamp_mode = "vc" →
      pulse_response_qc_pass rec (a, b) n adj =
        (if stdGt (pySlice rec.primary a b) 15e-12 then .ok (false, false)
         else if check_adjacent adj then .ok (false, false)
         else .ok (holding_limits_pass (npMedian (pySlice rec.command a b))
                    rec.baseline_potential)))
  ∧ (pulse_response_qc_pass recVC (0, 4) none [] = .ok (true, true) ∧
     holding_limits_pass (npMedian (pySlice recVC.primary 0 4)) recVC.baseline_potential
       = (false, false)) := by
  constructor
  · intro rec a b n adj hq hn hm
    unfold pulse_response_qc_pass pulse_response_window_stage pulse_response_tail_stage
    simp [hq, hn, hm]
  · exact ⟨by with_unfolding_all rfl, by with_unfolding_all decide⟩

/-- C4, witness at the concrete voltage-clamp recording. -/
theorem C4_vc_base_from_command_witness :
    pulse_response_qc_pass recVC (0, 4) (some 1) [] =
      (if stdGt (pySlice recVC.primary 0 4) 15e-12 then .ok (false, false)
       else if check_adjacent [] then .ok (false, false)
       else .ok (holding_limits_pass (npMedian (pySlice recVC.command 0 4))
                  recVC.baseline_potential)) :=
  C4_vc_base_from_command.1 recVC 0 4 (some 1) [] (by with_unfolding_all decide)
    (by decide) rfl

/-- C5.  The holding-limits step passes the excitatory polarity exactly
when both the window median and the recording baseline potential lie
strictly inside -85 mV to -45 mV, passes the inhibitory polarity
exactly when both lie strictly inside -60 mV to -45 mV, and the two
verdicts can both be true in the overlap, also through the full
pulse-response check. -/
theorem C5_holding_ranges :
    (∀ base base2 : ℚ,
      ((holding_limits_pass base base2).1 = true ↔
        ((-85e-3 < base ∧ base < -45e-3) ∧ (-85e-3 < base2 ∧ base2 < -45e-3))) ∧
      ((holding_limits_pass base base2).2 = true ↔
        ((-60e-3 < base ∧ base < -45e-3) ∧ (-60e-3 < base2 ∧ base2 < -45e-3))))
  ∧ holding_limits_pass (-50e-3) (-50e-3) = (true, true)
  ∧ pulse_response_qc_pass recOkIC (0, 2) none [] = .ok (true, true) := by
  refine ⟨?_, by with_unfolding_all decide, by with_unfolding_all rfl⟩
  intro base base2
  constructor <;> simp [holding_limits_pass]

/-- A current-clamp recording identical to recOkIC except that exactly
10 of its 100 primary samples are exactly zero. -/
def recZeros10 : PatchClampRecording :=
  { recOkIC with primary := List.replicate 10 0 ++ List.replicate 90 (-50e-3) }

/-- A current-clamp recording identical to recOkIC except that exactly
11 of its 100 primary samples are exactly zero. -/
def recZeros11 : PatchClampRecording :=
  { recOkIC with primary := List.replicate 11 0 ++ List.replicate 89 (-50e-3) }

/-- C6.  The zero-fraction check uses a floor-division threshold: any
recording whose primary channel has strictly more exact zeros than a
tenth (floor) of its length fails recording_qc_pass, a length-100
array with exactly 10 zeros passes, and one with 11 zeros fails. -/
theorem C6_zero_fraction_floor :
    (∀ rec : PatchClampRecording,
        zeroCount rec.primary > rec.primary.length / 10 →
        recording_qc_pass rec = false)
  ∧ (recZeros10.primary.length = 100 ∧ zeroCount recZeros10.primary = 10 ∧
     recording_qc_pass recZeros10 = true)
  ∧ (recZeros11.primary.length = 100 ∧ zeroCount recZeros11.primary = 11 ∧
     recording_qc_pass recZeros11 = false) := by
  refine ⟨?_, ⟨by decide, by with_unfolding_all decide, by with_unfolding_all decide⟩,
    ⟨by decide, by with_unfolding_all decide, by with_unfolding_all decide⟩⟩
  intro rec h
  simp [recording_qc_pass, h]

/-- C6, witness: the universally quantified part applied to the
11-zeros recording. -/
theorem C6_zero_fraction_floor_witness :
    recording_qc_pass recZeros11 = false :=
  C6_zero_fraction_floor.1 recZeros11 (by with_unfolding_all decide)

/-- C7.  On the current-clamp path, once the recording-level and spike
checks have passed, the pulse response fails with (false, false) if the
standard deviation of the primary window exceeds 1.5 mV or its maximum
exceeds -40 mV. -/
theorem C7_ic_noise_checks (rec : PatchClampRecording) (a b : Nat) (n : Option ℤ)
    (adj : List ℚ) (hq : recording_qc_pass rec = true) (hn : n ≠ some 0)
    (hm : rec.clamp_mode = "ic")
    (hfail : stdGt (pySlice rec.primary a b) 1.5e-3 = true ∨
             npMax (pySlice rec.primary a b) > -40e-3) :
    pulse_response_qc_pass rec (a, b) n adj = .ok (false, false) := by
  unfold pulse_response_qc_pass pulse_response_window_stage
  rcases hfail with hf | hf
  · simp [hq, hn, hm, hf]
  · by_cases hs : stdGt (pySlice rec.primary a b) 1.5e-3 <;> simp [hq, hn, hm, hs, hf]

/-- A current-clamp recording that passes recording_qc_pass but whose
primary trace alternates between -50 mV and -60 mV, so the window
standard deviation (5 mV) exceeds the 1.5 mV limit. -/
def recNoisyIC : PatchClampRecording :=
  { recOkIC with primary := [-50e-3, -60e-3, -50e-3, -60e-3] }

/-- C7, witness at the noisy current-clamp recording. -/
theorem C7_ic_noise_checks_witness :
    pulse_response_qc_pass recNoisyIC (0, 4) none [] = .ok (false, false) :=
  C7_ic_noise_checks recNoisyIC 0 4 none [] (by with_unfolding_all decide)
    (by decide) rfl (Or.inl (by with_unfolding_all decide))

/-- C8.  Once the recording-level check passes, a present spike count
of exactly zero short-circuits to (false, false), while the
not-applicable sentinel skips the spike check and hands evaluation to
the window-statistics stage. -/
theorem C8_spike_count (rec : PatchClampRecording) (w : Nat × Nat) (adj : List ℚ)
    (hq : recording_qc_pass rec = true) :
    pulse_response_qc_pass rec w (some 0) adj = .ok (false, false) ∧
    pulse_response_qc_pass rec w none adj = pulse_response_window_stage rec w adj := by
  constructor <;> simp [pulse_response_qc_pass, hq]

/-- C8, witness at the passing current-clamp recording. -/
theorem C8_spike_count_witness :
    pulse_response_qc_pass recOkIC (0, 2) (some 0) [] = .ok (false, false) ∧
    pulse_response_qc_pass recOkIC (0, 2) none [] =
      pulse_response_window_stage recOkIC (0, 2) [] :=
  C8_spike_count recOkIC (0, 2) [] (by with_unfolding_all decide)

/-- C9.  After the window statistics have been computed without
failure, any adjacent pulse strictly within 8 ms forces (false, false);
if every adjacent pulse is at least 8 ms away (in particular if there
are none) evaluation proceeds to the holding-limits step.  The last
conjunct shows the voltage-clamp path reaching this stage. -/
theorem C9_adjacent_pulse_quiescence :
    (∀ (rec : PatchClampRecording) (base : ℚ) (adj : List ℚ),
      ((∃ t ∈ adj, |t| < 8e-3) →
        pulse_response_tail_stage rec base adj = .ok (false, false)) ∧
      ((∀ t ∈ adj, ¬ |t| < 8e-3) →
        pulse_response_tail_stage rec base adj =
          .ok (holding_limits_pass base rec.baseline_potential)))
  ∧ (∀ (rec : PatchClampRecording) (base : ℚ),
      pulse_response_tail_stage rec base [] =
        .ok (holding_limits_pass base rec.baseline_potential))
  ∧ (∀ (rec : PatchClampRecording) (w : Nat × Nat) (n : Option ℤ) (adj : List ℚ),
      recording_qc_pass rec = true → n ≠ some 0 → rec.clamp_mode = "vc" →
      stdGt (pySlice rec.primary w.1 w.2) 15e-12 = false →
      pulse_response_qc_pass rec w n adj =
        pulse_response_tail_stage rec (npMedian (pySlice rec.command w.1 w.2)) adj) := by
  refine ⟨?_, ?_, ?_⟩
  · intro rec base adj
    constructor
    · intro h
      have hc : check_adjacent adj = true := by simpa [check_adjacent] using h
      simp [pulse_response_tail_stage, hc]
    · intro h
      have hc : check_adjacent adj = false := by simpa [check_adjacent] using h
      simp [pulse_response_tail_stage, hc]
  · intro rec base
    simp [pulse_response_tail_stage, check_adjacent]
  · intro rec w n adj hq hn hm hs
    unfold pulse_response_qc_pass pulse_response_window_stage
    simp [hq, hn, hm, hs]

/-- C9, witness: a 5 ms adjacent pulse forces (false, false), while
the list of an 8 ms and a -9 ms pulse proceeds to the holding step. -/
theorem C9_adjacent_pulse_quiescence_witness :
    pulse_response_tail_stage recOkIC (-50e-3) [5e-3] = .ok (false, false) ∧
    pulse_response_tail_stage recOkIC (-50e-3) [8e-3, -9e-3] =
      .ok (holding_limits_pass (-50e-3) recOkIC.baseline_potential) :=
  ⟨(C9_adjacent_pulse_quiescence.1 recOkIC (-50e-3) [5e-3]).1
     (by with_unfolding_all decide),
   (C9_adjacent_pulse_quiescence.1 recOkIC (-50e-3) [8e-3, -9e-3]).2
     (by with_unfolding_all decide)⟩

/-- The inhibitory limits lie inside the excitatory limits, so a pair
with a true inhibitory component has a true excitatory component. -/
lemma holding_inh_implies_exc (base base2 : ℚ) (e : Bool)
    (h : holding_limits_pass base base2 = (e, true)) : e = true := by
  unfold holding_limits_pass at h
  rw [Prod.mk.injEq] at h
  obtain ⟨h1, h2⟩ := h
  rw [Bool.and_eq_true, decide_eq_true_iff, decide_eq_true_iff] at h2
  obtain ⟨⟨hb1, hb2⟩, hc1, hc2⟩ := h2
  subst h1
  rw [Bool.and_eq_true, decide_eq_true_iff, decide_eq_true_iff]
  have hx : (-85e-3 : ℚ) < -60e-3 := by norm_num
  exact ⟨⟨lt_trans hx hb1, hb2⟩, lt_trans hx hc1, hc2⟩

/-- C10.  Whenever pulse_response_qc_pass returns normally with a true
inhibitory verdict, the excitatory verdict is true as well: the pair
(false, true) is never returned. -/
theorem C10_inhibitory_implies_excitatory (rec : PatchClampRecording) (w : Nat × Nat)
    (n : Option ℤ) (adj : List ℚ) (e : Bool)
    (h : pulse_response_qc_pass rec w n adj = .ok (e, true)) : e = true := by
  unfold pulse_response_qc_pass pulse_response_window_stage
    pulse_response_tail_stage at h
  repeat' split at h
  all_goals try simp_all
  all_goals repeat' split at h
  all_goals try simp_all
  all_goals exact holding_inh_implies_exc _ _ _ (by assumption)

/-- C10, witness: a run returning a true inhibitory verdict, on which
the theorem yields the (trivially checkable) true excitatory verdict. -/
theorem C10_inhibitory_implies_excitatory_witness :
    pulse_response_qc_pass recOkIC (0, 2) none [] = .ok (true, true) ∧ true = true :=
  ⟨by with_unfolding_all rfl,
   C10_inhibitory_implies_excitatory recOkIC (0, 2) none [] true
     (by with_unfolding_all rfl)⟩
